import Mathlib

/-!
Verification of the servo mouth-animation and narration components of the
joke-telling robot repository (sir.py, web.py, servo_test.py, bbb/servo.py,
bbb/tts.py), via a shallow embedding of the Python source in Lean.

Python floats on the duty-cycle path are modelled as rationals; machine time
(time.time() samples observed at each loop check) is modelled as an explicit
list of elapsed-time rationals; the filesystem touched by the narration code
is modelled as a list of existing file paths; subprocess exit codes are
explicit oracle parameters that the embedded code ignores, mirroring
subprocess.run(..., check=False).
-/

/-- Servo angle constants shared by sir.py, web.py and bbb/servo.py:
MOUTH_CLOSED = 90. -/
def MOUTH_CLOSED : Int := 90

/-- MOUTH_OPEN = 0. -/
def MOUTH_OPEN : Int := 0

/-- MOUTH_HALF = 45. -/
def MOUTH_HALF : Int := 45

/-- The clamp written inline in the Python sources as
max(0, min(180, angle)). -/
def clampAngle (a : Int) : Int := max 0 (min 180 a)

/-- State of a ServoController instance (bbb/servo.py ServoController, and
the identical classes in sir.py / web.py): calibration fields min_duty and
max_duty, the value last written to the PWM output, the recorded
last-commanded angle (None until first command), and whether the PWM device
has been closed by cleanup. -/
structure ServoController where
  gpio : Int
  min_duty : ℚ
  max_duty : ℚ
  pwm_value : ℚ
  current_angle : Option Int
  closed : Bool
deriving DecidableEq, Repr

namespace ServoController

/-- bbb/servo.py ServoController.angle_to_duty: clamp the angle to [0,180]
and map linearly onto [min_duty, max_duty]. -/
def angle_to_duty (c : ServoController) (angle : Int) : ℚ :=
  let a := clampAngle angle
  c.min_duty + ((a : ℚ) / 180) * (c.max_duty - c.min_duty)

/-- bbb/servo.py ServoController.set_angle: clamp, write the duty for the
clamped angle to the PWM output, record the clamped angle. -/
def set_angle (c : ServoController) (angle : Int) : ServoController :=
  let a := clampAngle angle
  { c with pwm_value := c.angle_to_duty a, current_angle := some a }

/-- bbb/servo.py ServoController.release: write 0 to the PWM output. -/
def release (c : ServoController) : ServoController :=
  { c with pwm_value := 0 }

/-- bbb/servo.py ServoController.cleanup: write 0 and close the device. -/
def cleanup (c : ServoController) : ServoController :=
  { c with pwm_value := 0, closed := true }

end ServoController

namespace ServoTest

/-- servo_test.py AUTO_RELEASE = True. -/
def AUTO_RELEASE : Bool := true

/-- servo_test.py ServoController.set_angle(angle, hold=False): clamp, write
the duty, record the angle, sleep SETTLE_TIME, then release unless hold was
requested (AUTO_RELEASE is True). -/
def set_angle (c : ServoController) (angle : Int) (holdFlag : Bool) :
    ServoController :=
  let a := clampAngle angle
  let c1 : ServoController :=
    { c with pwm_value := c.angle_to_duty a, current_angle := some a }
  if AUTO_RELEASE && !holdFlag then c1.release else c1

/-- servo_test.py ServoController.hold: if an angle has been commanded,
re-assert its duty; otherwise do nothing. -/
def hold (c : ServoController) : ServoController :=
  match c.current_angle with
  | some a => { c with pwm_value := c.angle_to_duty a }
  | none => c

end ServoTest

/-- The clamp is idempotent. -/
theorem clampAngle_idem (a : Int) : clampAngle (clampAngle a) = clampAngle a := by
  unfold clampAngle
  rcases le_total a 0 with h | h
  · rw [min_eq_right (by omega), max_eq_left (by omega),
      min_eq_right (by omega), max_eq_left (by omega)]
  · rcases le_total a 180 with h2 | h2
    · rw [min_eq_right h2, max_eq_right h, min_eq_right h2, max_eq_right h]
    · rw [min_eq_left h2, max_eq_right (by omega), min_eq_left (by omega),
        max_eq_right (by omega)]

/-- The clamp is monotone. -/
theorem clampAngle_mono {a b : Int} (h : a ≤ b) :
    clampAngle a ≤ clampAngle b :=
  max_le_max le_rfl (min_le_min le_rfl h)

theorem clampAngle_nonneg (a : Int) : 0 ≤ clampAngle a := le_max_left 0 _

theorem clampAngle_le (a : Int) : clampAngle a ≤ 180 :=
  max_le (by norm_num) (min_le_left 180 a)

/-- angle_to_duty only sees the clamped angle. -/
theorem angle_to_duty_clamp (c : ServoController) (a : Int) :
    c.angle_to_duty (clampAngle a) = c.angle_to_duty a := by
  unfold ServoController.angle_to_duty
  rw [clampAngle_idem]

/-- Claim C6: for every integer angle a outside [0,180] and every actuator
state, set_angle a produces exactly the same resulting state (duty written
and recorded last-commanded angle) as set_angle (clamp a 0 180). -/
theorem set_angle_eq_set_angle_clamp (c : ServoController) (a : Int)
    (h : a < 0 ∨ 180 < a) :
    c.set_angle a = c.set_angle (clampAngle a) := by
  unfold ServoController.set_angle
  rw [clampAngle_idem]

/-- Witness for C6: the out-of-range angle 200 is clamped to 180 and the
states agree. -/
theorem set_angle_eq_set_angle_clamp_witness :
    ((200 : Int) < 0 ∨ (180 : Int) < 200) ∧
      (ServoController.mk 18 (1/40) (1/8) 0 none false).set_angle 200 =
        (ServoController.mk 18 (1/40) (1/8) 0 none false).set_angle
          (clampAngle 200) :=
  ⟨Or.inr (by norm_num),
    set_angle_eq_set_angle_clamp _ 200 (Or.inr (by norm_num))⟩

/-- Claim C7: for a controller whose calibration satisfies
min_duty ≤ max_duty (as the shipped values 0.025 ≤ 0.125 do), angle_to_duty
is monotonically non-decreasing in the angle, angle_to_duty 0 = min_duty and
angle_to_duty 180 = max_duty. -/
theorem angle_to_duty_mono_and_endpoints (c : ServoController)
    (h : c.min_duty ≤ c.max_duty) :
    (∀ a b : Int, a ≤ b → c.angle_to_duty a ≤ c.angle_to_duty b) ∧
      c.angle_to_duty 0 = c.min_duty ∧ c.angle_to_duty 180 = c.max_duty := by
  refine ⟨?_, ?_, ?_⟩
  · intro a b hab
    unfold ServoController.angle_to_duty
    have hc : clampAngle a ≤ clampAngle b := clampAngle_mono hab
    have hq : ((clampAngle a : ℚ) / 180) ≤ ((clampAngle b : ℚ) / 180) := by
      apply div_le_div_of_nonneg_right _ (by norm_num)
      exact_mod_cast hc
    have hr : (0 : ℚ) ≤ c.max_duty - c.min_duty := by linarith
    have := mul_le_mul_of_nonneg_right hq hr
    simpa using add_le_add_left this c.min_duty
  · unfold ServoController.angle_to_duty
    norm_num [clampAngle]
  · unfold ServoController.angle_to_duty
    norm_num [clampAngle]

/-- Witness for C7: the shipped calibration min_duty = 1/40, max_duty = 1/8
satisfies the hypothesis and the conclusion. -/
theorem angle_to_duty_mono_and_endpoints_witness :
    ((1 : ℚ)/40 ≤ (1 : ℚ)/8) ∧
      ((∀ a b : Int, a ≤ b →
          (ServoController.mk 18 (1/40) (1/8) 0 none false).angle_to_duty a ≤
            (ServoController.mk 18 (1/40) (1/8) 0 none false).angle_to_duty b) ∧
        (ServoController.mk 18 (1/40) (1/8) 0 none false).angle_to_duty 0 =
          (1 : ℚ)/40 ∧
        (ServoController.mk 18 (1/40) (1/8) 0 none false).angle_to_duty 180 =
          (1 : ℚ)/8) :=
  ⟨by norm_num, angle_to_duty_mono_and_endpoints _ (by norm_num)⟩

/-- Observable hardware events emitted by the animation code: an angle
command, a timed pause (time.sleep, in milliseconds), and a PWM release. -/
inductive Event where
  | setAngle (a : Int)
  | sleep (ms : Nat)
  | release
deriving DecidableEq, Repr

/-- One servo.set_angle call inside an animation, appended to the trace. -/
def doSet (st : ServoController × List Event) (a : Int) :
    ServoController × List Event :=
  (st.1.set_angle a, st.2 ++ [Event.setAngle a])

/-- One time.sleep call inside an animation, appended to the trace. -/
def doSleep (st : ServoController × List Event) (ms : Nat) :
    ServoController × List Event :=
  (st.1, st.2 ++ [Event.sleep ms])

/-- One servo.release call inside an animation, appended to the trace. -/
def doRelease (st : ServoController × List Event) :
    ServoController × List Event :=
  (st.1.release, st.2 ++ [Event.release])

/-- bbb/servo.py laugh_animation (identical step sequence in sir.py and
web.py): if no servo is available return immediately; otherwise run the
fixed open/half/open/half/open/half/open/closed sequence with hardcoded
pauses and release. -/
def laugh_animation (servo : Option ServoController) :
    Option ServoController × List Event :=
  match servo with
  | none => (none, [])
  | some s =>
    let st := doSleep (doSet (s, []) MOUTH_OPEN) 200
    let st := doSleep (doSet st MOUTH_HALF) 150
    let st := doSleep (doSet st MOUTH_OPEN) 200
    let st := doSleep (doSet st MOUTH_HALF) 150
    let st := doSleep (doSet st MOUTH_OPEN) 200
    let st := doSleep (doSet st MOUTH_HALF) 150
    let st := doSleep (doSet st MOUTH_OPEN) 300
    let st := doSleep (doSet st MOUTH_CLOSED) 200
    let st := doRelease st
    (some st.1, st.2)

/-- One iteration of the while body in mouth_talking_animation:
set open, sleep 150ms, set closed, sleep 100ms. -/
def talkStep (st : ServoController × List Event) :
    ServoController × List Event :=
  doSleep (doSet (doSleep (doSet st MOUTH_OPEN) 150) MOUTH_CLOSED) 100

/-- The while loop of mouth_talking_animation. Each element of samples is
the elapsed time (time.time() - start_time) observed at one loop-condition
check; the loop body runs while the observed elapsed time is below the
duration. -/
def talkLoop (duration : ℚ) :
    List ℚ → ServoController × List Event → ServoController × List Event
  | [], st => st
  | t :: rest, st =>
    if t < duration then talkLoop duration rest (talkStep st) else st

/-- bbb/servo.py mouth_talking_animation (identical in sir.py and web.py):
if no servo is available return immediately; otherwise loop open/closed
until the duration elapses, then force the mouth closed and release. -/
def mouth_talking_animation (servo : Option ServoController) (duration : ℚ)
    (samples : List ℚ) : Option ServoController × List Event :=
  match servo with
  | none => (none, [])
  | some s =>
    let st := talkLoop duration samples (s, [])
    let st := doRelease (doSet st MOUTH_CLOSED)
    (some st.1, st.2)

/-- web.py api_servo_release: report no_servo if the servo is absent,
otherwise release it under the lock and report ok. -/
def api_servo_release (servo : Option ServoController) :
    (Option ServoController × List Event) × String :=
  match servo with
  | none => ((none, []), "no_servo")
  | some s => ((some s.release, [Event.release]), "ok")

/-- A servo controller in its post-__init__ state (shipped calibration
min_duty = 0.025, max_duty = 0.125, no angle commanded yet). -/
def defaultServo : ServoController :=
  { gpio := 18, min_duty := 1/40, max_duty := 1/8, pwm_value := 0,
    current_angle := none, closed := false }

/-- Recognizer for the timed angle-setting steps of a trace. -/
def isAngleStep : Event → Bool
  | Event.setAngle _ => true
  | _ => false

/-- Helper: the laugh animation emits one fixed event trace, whatever the
initial controller state. -/
theorem laugh_events (s : ServoController) :
    (laugh_animation (some s)).2 =
      [Event.setAngle MOUTH_OPEN, Event.sleep 200,
       Event.setAngle MOUTH_HALF, Event.sleep 150,
       Event.setAngle MOUTH_OPEN, Event.sleep 200,
       Event.setAngle MOUTH_HALF, Event.sleep 150,
       Event.setAngle MOUTH_OPEN, Event.sleep 200,
       Event.setAngle MOUTH_HALF, Event.sleep 150,
       Event.setAngle MOUTH_OPEN, Event.sleep 300,
       Event.setAngle MOUTH_CLOSED, Event.sleep 200,
       Event.release] := by
  simp [laugh_animation, doSet, doSleep, doRelease]

/-- Counterexample to claim C1 as stated: on a freshly initialized servo the
laugh animation performs 8 timed angle-setting steps, not 7. -/
theorem laugh_animation_not_seven_steps :
    ¬ (laugh_animation (some defaultServo)).2.countP isAngleStep = 7 := by
  rw [laugh_events]
  decide

/-- Claim C1 (amended): for every initial actuator state, the laugh
animation emits exactly the fixed trace of 8 timed angle-setting steps
open(200ms), half(150ms), open(200ms), half(150ms), open(200ms),
half(150ms), open(300ms), closed(200ms) followed by a release, and the
final actuator state is released (PWM value 0). -/
theorem laugh_animation_trace (s : ServoController) :
    (laugh_animation (some s)).2 =
      [Event.setAngle MOUTH_OPEN, Event.sleep 200,
       Event.setAngle MOUTH_HALF, Event.sleep 150,
       Event.setAngle MOUTH_OPEN, Event.sleep 200,
       Event.setAngle MOUTH_HALF, Event.sleep 150,
       Event.setAngle MOUTH_OPEN, Event.sleep 200,
       Event.setAngle MOUTH_HALF, Event.sleep 150,
       Event.setAngle MOUTH_OPEN, Event.sleep 300,
       Event.setAngle MOUTH_CLOSED, Event.sleep 200,
       Event.release] ∧
    ∃ s2, (laugh_animation (some s)).1 = some s2 ∧ s2.pwm_value = 0 := by
  refine ⟨laugh_events s,
    ((((((((s.set_angle MOUTH_OPEN).set_angle MOUTH_HALF).set_angle
      MOUTH_OPEN).set_angle MOUTH_HALF).set_angle MOUTH_OPEN).set_angle
      MOUTH_HALF).set_angle MOUTH_OPEN).set_angle MOUTH_CLOSED).release,
    ?_, rfl⟩
  simp [laugh_animation, doSet, doSleep, doRelease]

/-- Claim C5: for every duration at most zero and nonnegative observed
elapsed times, the talk animation performs zero open/close iterations (its
trace is just the final forced close and release, containing no
open-angle command) and ends released with the closed angle recorded as
the last-commanded angle. -/
theorem mouth_talking_animation_nonpos_duration (s : ServoController)
    (d : ℚ) (samples : List ℚ) (hs : ∀ t ∈ samples, 0 ≤ t) (hd : d ≤ 0) :
    (mouth_talking_animation (some s) d samples).2 =
      [Event.setAngle MOUTH_CLOSED, Event.release] ∧
    ∃ s2, (mouth_talking_animation (some s) d samples).1 = some s2 ∧
      s2.current_angle = some MOUTH_CLOSED ∧ s2.pwm_value = 0 := by
  have hloop : talkLoop d samples (s, []) = (s, []) := by
    cases samples with
    | nil => rfl
    | cons t rest =>
      have ht : ¬ t < d :=
        not_lt.2 (hd.trans (hs t (List.mem_cons_self t rest)))
      simp [talkLoop, ht]
  refine ⟨?_, (s.set_angle MOUTH_CLOSED).release, ?_, ?_, rfl⟩
  · simp [mouth_talking_animation, hloop, doSet, doRelease]
  · simp [mouth_talking_animation, hloop, doSet, doRelease]
  · show some (clampAngle MOUTH_CLOSED) = some MOUTH_CLOSED
    decide

/-- Witness for C5 at duration 0 with concrete elapsed-time samples. -/
theorem mouth_talking_animation_nonpos_duration_witness :
    (mouth_talking_animation (some defaultServo) 0 [0, 1/4, 1/2]).2 =
      [Event.setAngle MOUTH_CLOSED, Event.release] ∧
    ∃ s2,
      (mouth_talking_animation (some defaultServo) 0 [0, 1/4, 1/2]).1 =
        some s2 ∧
      s2.current_angle = some MOUTH_CLOSED ∧ s2.pwm_value = 0 :=
  mouth_talking_animation_nonpos_duration defaultServo 0 [0, 1/4, 1/2]
    (by norm_num) le_rfl

/-- The animation entry points a caller can invoke on the (possibly absent)
global servo: mouth_talking_animation, laugh_animation, and the web API
release endpoint. -/
inductive ServoCall where
  | talk (duration : ℚ) (samples : List ℚ)
  | laugh
  | releaseCall
deriving Repr

/-- Dispatch one call against the optional servo handle. -/
def runCall (servo : Option ServoController) :
    ServoCall → Option ServoController × List Event
  | ServoCall.talk d samples => mouth_talking_animation servo d samples
  | ServoCall.laugh => laugh_animation servo
  | ServoCall.releaseCall => (api_servo_release servo).1

/-- Run a sequence of animation calls, accumulating the hardware trace. -/
def runCalls (servo : Option ServoController) :
    List ServoCall → Option ServoController × List Event
  | [] => (servo, [])
  | c :: cs =>
    let r := runCall servo c
    let r2 := runCalls r.1 cs
    (r2.1, r.2 ++ r2.2)

/-- Claim C8: if the servo failed to initialize (the handle is None), any
sequence of talk / laugh / release calls performs no hardware write at all:
every call returns at its entry guard, the trace stays empty, and the
handle stays None (the embedded functions are total, so no call raises). -/
theorem animations_noop_without_servo (cs : List ServoCall) :
    runCalls none cs = (none, []) := by
  induction cs with
  | nil => rfl
  | cons c cs ih =>
    cases c <;>
      simp [runCalls, runCall, mouth_talking_animation, laugh_animation,
        api_servo_release, ih]

/-- Which narration binaries shutil.which can find on the system. -/
structure TtsEnv where
  pico2wave : Bool
  espeak : Bool
  say : Bool
deriving DecidableEq, Repr

/-- Identifiers the engine probes can return. -/
inductive TtsEngine where
  | pico2wave
  | espeak
  | say
deriving DecidableEq, Repr

/-- shutil.which for one engine binary. -/
def availableOf (env : TtsEnv) : TtsEngine → Bool
  | TtsEngine.pico2wave => env.pico2wave
  | TtsEngine.espeak => env.espeak
  | TtsEngine.say => env.say

/-- The spec-side selection rule: return the first engine of the given
preference order that is available, or none. Compared against the three
probe functions found in the source. -/
def firstAvailable (env : TtsEnv) : List TtsEngine → Option TtsEngine
  | [] => none
  | e :: rest =>
    if availableOf env e then some e else firstAvailable env rest

namespace Bbb

/-- bbb/tts.py check_tts_available: probe pico2wave, then espeak,
then say. -/
def check_tts_available (env : TtsEnv) : Option TtsEngine :=
  if env.pico2wave then some TtsEngine.pico2wave
  else if env.espeak then some TtsEngine.espeak
  else if env.say then some TtsEngine.say
  else none

end Bbb

namespace Sir

/-- sir.py check_tts_available: probe pico2wave, then say, then espeak. -/
def check_tts_available (env : TtsEnv) : Option TtsEngine :=
  if env.pico2wave then some TtsEngine.pico2wave
  else if env.say then some TtsEngine.say
  else if env.espeak then some TtsEngine.espeak
  else none

end Sir

namespace Web

/-- web.py check_tts_available: probe espeak, then say; pico2wave is never
probed. -/
def check_tts_available (env : TtsEnv) : Option TtsEngine :=
  if env.espeak then some TtsEngine.espeak
  else if env.say then some TtsEngine.say
  else none

end Web

/-- Counterexample to claim C2 as stated: with pico2wave absent and both
espeak and say installed, sir.py selects say while the claimed preference
order (pico2wave, espeak, say) selects espeak, so not every front-end
variant uses the claimed order. -/
theorem sir_engine_order_differs :
    Sir.check_tts_available (TtsEnv.mk false true true) ≠
      firstAvailable (TtsEnv.mk false true true)
        [TtsEngine.pico2wave, TtsEngine.espeak, TtsEngine.say] := by
  decide

/-- Claim C2 (amended): each probe returns the first available engine of a
fixed per-variant preference order, or none — bbb/tts.py uses pico2wave,
espeak, say; sir.py uses pico2wave, say, espeak; web.py uses espeak, say
(never probing pico2wave). The variants do not share a single order. -/
theorem check_tts_available_orders (env : TtsEnv) :
    Bbb.check_tts_available env =
      firstAvailable env
        [TtsEngine.pico2wave, TtsEngine.espeak, TtsEngine.say] ∧
    Sir.check_tts_available env =
      firstAvailable env
        [TtsEngine.pico2wave, TtsEngine.say, TtsEngine.espeak] ∧
    Web.check_tts_available env =
      firstAvailable env [TtsEngine.espeak, TtsEngine.say] := by
  obtain ⟨p, e, s⟩ := env
  cases p <;> cases e <;> cases s <;> exact ⟨rfl, rfl, rfl⟩

/-- bbb/tts.py speak_text_sync, lines 171-172: when no explicit tts_cmd
argument is passed, use the cached engine if one is set, otherwise rerun
check_tts_available (tts_cmd = _tts_command or check_tts_available()). -/
def speak_engine_choice (cached : Option TtsEngine) (env : TtsEnv) :
    Option TtsEngine :=
  match cached with
  | some e => some e
  | none => Bbb.check_tts_available env

/-- Counterexample to claim C4 as stated: with nothing cached (no engine
found at startup) and espeak installed by the time of the call,
speak_text_sync re-runs detection and speaks with espeak instead of
consulting only the cached flag — engine absence is not permanent. -/
theorem speak_redetects_when_cache_empty :
    speak_engine_choice none (TtsEnv.mk false true false) ≠ none := by
  decide

/-- bbb/servo.py init_servo, with the hardware outcome made explicit
(SERVO_ENABLED is True and no reloader is involved in the modelled flow):
when the PWM channel can be claimed, construct the controller, command the
closed angle, sleep 0.3s, release, and cache the instance; when
construction raises, cache None. This is the only place the hardware is
probed. -/
def init_servo (hardwareOk : Bool) (s : ServoController) :
    Option ServoController :=
  if hardwareOk then some ((s.set_angle MOUTH_CLOSED).release) else none

/-- sir.py tell_joke, line 226: the engine used for a joke is obtained by
re-running check_tts_available on every call
(tts_cmd = check_tts_available() if use_speech else None); no cached value
is consulted. -/
def tell_joke_engine (use_speech : Bool) (env : TtsEnv) : Option TtsEngine :=
  if use_speech then Sir.check_tts_available env else none

/-- No animation call changes whether the servo handle is present: each
entry point only reads the handle cached by init_servo and never
re-attempts hardware detection. -/
theorem runCall_isSome (h : Option ServoController) (c : ServoCall) :
    ((runCall h c).1).isSome = h.isSome := by
  cases c with
  | talk d samples => cases h <;> simp [runCall, mouth_talking_animation]
  | laugh => cases h <;> simp [runCall, laugh_animation]
  | releaseCall => cases h <;> simp [runCall, api_servo_release]

/-- Handle presence is invariant under whole call sequences. -/
theorem runCalls_isSome (h : Option ServoController) (cs : List ServoCall) :
    ((runCalls h cs).1).isSome = h.isSome := by
  induction cs generalizing h with
  | nil => rfl
  | cons c cs ih =>
    show ((runCalls (runCall h c).1 cs).1).isSome = h.isSome
    rw [ih, runCall_isSome]

/-- Claim C4 (amended): servo availability is probed once, by init_servo,
and cached as the optional handle; every later animation call consults
only that cached handle, so handle presence is invariant across any call
sequence and a failed init makes every later call a permanent no-op. For
narration, a cached engine is reused by speak_text_sync without
re-detection, but with an empty cache each speak_text_sync call re-attempts
detection via check_tts_available, and sir.py's tell_joke re-probes the
environment on every call — engine absence is not permanent. -/
theorem capability_caching_policy (s : ServoController)
    (h : Option ServoController) (cs : List ServoCall) (e : TtsEngine)
    (env : TtsEnv) :
    ((runCalls h cs).1).isSome = h.isSome ∧
    runCalls (init_servo false s) cs = (none, []) ∧
    speak_engine_choice (some e) env = some e ∧
    speak_engine_choice none env = Bbb.check_tts_available env ∧
    tell_joke_engine true env = Sir.check_tts_available env := by
  refine ⟨runCalls_isSome h cs, ?_, rfl, rfl, rfl⟩
  show runCalls none cs = (none, [])
  induction cs with
  | nil => rfl
  | cons c cs ih =>
    cases c <;>
      simp [runCalls, runCall, mouth_talking_animation, laugh_animation,
        api_servo_release, ih]

/-- The fixed laugh phrase substituted by speak_text_sync. -/
def laughPhrase : String := "Ha ha ha ha! That\x27s a good one!"

/-- bbb/tts.py speak_text_sync: choose the engine (cached, else re-probe);
return without speaking if none; otherwise, when is_laugh is set replace
the text by the fixed laugh phrase, then dispatch to the engine-specific
speaker. The result records which engine narrates which text. -/
def speak_text_sync (text : String) (is_laugh : Bool)
    (cached : Option TtsEngine) (env : TtsEnv) :
    Option (TtsEngine × String) :=
  match speak_engine_choice cached env with
  | none => none
  | some e => some (e, if is_laugh then laughPhrase else text)

/-- Claim C9: with the laugh flag set, speak_text_sync behaves identically
for any two input texts — the input is ignored and the fixed laugh phrase
is narrated instead. -/
theorem speak_laugh_ignores_text (t1 t2 : String)
    (cached : Option TtsEngine) (env : TtsEnv) :
    speak_text_sync t1 true cached env =
      speak_text_sync t2 true cached env := by
  unfold speak_text_sync
  cases speak_engine_choice cached env <;> rfl

/-- The filesystem, as the list of paths that currently exist. -/
abbrev FileSys := List String

/-- os.unlink wrapped in a try/except pass block: remove the path if
present, ignore any error. -/
def unlinkQuiet (fs : FileSys) (p : String) : FileSys :=
  fs.filter (fun q => q ≠ p)

/-- Bare os.unlink: remove the path, raising FileNotFoundError when it is
absent. -/
def os_unlink (fs : FileSys) (p : String) : Except String FileSys :=
  if p ∈ fs then Except.ok (fs.filter (fun q => q ≠ p))
  else Except.error "FileNotFoundError"

/-- The unlinked path is gone afterwards. -/
theorem not_mem_unlinkQuiet (fs : FileSys) (p : String) :
    p ∉ unlinkQuiet fs p := by
  simp [unlinkQuiet, List.mem_filter]

/-- unlinkQuiet never adds files. -/
theorem unlinkQuiet_not_mem {fs : FileSys} {q : String} (h : q ∉ fs)
    (p : String) : q ∉ unlinkQuiet fs p :=
  fun hmem => h (List.mem_of_mem_filter hmem)

namespace Bbb

/-- bbb/tts.py speak_with_pico over the filesystem model: create the
uniquely named temporary WAV (tempfile.NamedTemporaryFile, delete=False),
run pico2wave into it with check=False (the exit code picoExit is ignored),
then either amplify with sox into wavFile_loud.wav when sox is installed
(soxCreates records whether sox produced its output file; soxExit is
ignored), play (playExit ignored) and unlink both artifacts in try/except
blocks, or play the raw WAV and unlink it in a try/except block. -/
def speak_with_pico (fs : FileSys) (wavFile : String)
    (picoExit soxExit playExit : Int) (soxAvailable soxCreates : Bool) :
    FileSys :=
  let fs1 := wavFile :: fs
  if soxAvailable then
    let amplified := wavFile ++ "_loud.wav"
    let fs2 := if soxCreates then amplified :: fs1 else fs1
    let fs3 := unlinkQuiet fs2 amplified
    unlinkQuiet fs3 wavFile
  else
    unlinkQuiet fs1 wavFile

/-- bbb/tts.py speak_with_espeak over the filesystem model, when paplay is
the selected audio player: create the temporary WAV, run espeak -w into it
(espeakExit ignored, check=False), play it (playExit ignored), unlink it in
a try/except block. Without paplay, espeak plays directly and no file is
ever created. -/
def speak_with_espeak (fs : FileSys) (wavFile : String)
    (espeakExit playExit : Int) (paplayAvailable : Bool) : FileSys :=
  if paplayAvailable then
    let fs1 := wavFile :: fs
    unlinkQuiet fs1 wavFile
  else
    fs

end Bbb

namespace Sir

/-- sir.py speak_with_pico over the filesystem model: create the temporary
WAV, run pico2wave then aplay with check=False (exit codes ignored), then a
bare os.unlink of the WAV file. -/
def speak_with_pico (fs : FileSys) (wavFile : String)
    (picoExit playExit : Int) : Except String FileSys :=
  let fs1 := wavFile :: fs
  os_unlink fs1 wavFile

end Sir

/-- Claim C3: for every initial filesystem, temp-file name and subprocess
exit codes (subprocess.run is called with check=False, so backend or player
failure means a nonzero exit code that the caller ignores), the temporary
WAV file and the volume-boosted copy do not exist after the
file-generating speak paths return: bbb speak_with_pico (with and without
sox), bbb speak_with_espeak via paplay, and sir speak_with_pico, whose bare
os.unlink also cannot raise because the tempfile was just created. -/
theorem speak_temp_files_removed (fs : FileSys) (wavFile : String)
    (picoExit soxExit playExit espeakExit : Int)
    (soxAvailable soxCreates : Bool) :
    wavFile ∉ Bbb.speak_with_pico fs wavFile picoExit soxExit playExit
        soxAvailable soxCreates ∧
    wavFile ++ "_loud.wav" ∉ Bbb.speak_with_pico fs wavFile picoExit
        soxExit playExit true soxCreates ∧
    wavFile ∉ Bbb.speak_with_espeak fs wavFile espeakExit playExit true ∧
    (∃ fs2, Sir.speak_with_pico fs wavFile picoExit playExit =
        Except.ok fs2 ∧ wavFile ∉ fs2) := by
  refine ⟨?_, ?_, ?_, ?_⟩
  · unfold Bbb.speak_with_pico
    cases soxAvailable <;> simp <;> exact not_mem_unlinkQuiet _ _
  · unfold Bbb.speak_with_pico
    simp only [if_true]
    exact unlinkQuiet_not_mem (not_mem_unlinkQuiet _ _) _
  · unfold Bbb.speak_with_espeak
    simp only [if_true]
    exact not_mem_unlinkQuiet _ _
  · refine ⟨(wavFile :: fs).filter (fun q => q ≠ wavFile), ?_, ?_⟩
    · unfold Sir.speak_with_pico os_unlink
      rw [if_pos (List.mem_cons_self wavFile fs)]
    · simp [List.mem_filter]

/-- Claim C10: release, cleanup and hold leave the recorded last-commanded
angle unchanged (only set_angle modifies it); hold is a no-op when no angle
has ever been commanded; and after commanding an angle and releasing, hold
re-asserts exactly the duty of the last-commanded angle. -/
theorem release_preserves_current_angle (c : ServoController) (a : Int) :
    c.release.current_angle = c.current_angle ∧
    c.cleanup.current_angle = c.current_angle ∧
    (ServoTest.hold c).current_angle = c.current_angle ∧
    (c.current_angle = none → ServoTest.hold c = c) ∧
    (ServoTest.hold (c.set_angle a).release).pwm_value =
      c.angle_to_duty a := by
  refine ⟨rfl, rfl, ?_, ?_, ?_⟩
  · cases hc : c.current_angle <;> simp [ServoTest.hold, hc]
  · intro h
    simp [ServoTest.hold, h]
  · simp [ServoTest.hold, ServoController.set_angle,
      ServoController.release, ServoController.angle_to_duty,
      clampAngle_idem]

/-- Witness for C10 at a freshly initialized controller and angle 45. -/
theorem release_preserves_current_angle_witness :
    defaultServo.release.current_angle = defaultServo.current_angle ∧
    defaultServo.cleanup.current_angle = defaultServo.current_angle ∧
    (ServoTest.hold defaultServo).current_angle =
      defaultServo.current_angle ∧
    (defaultServo.current_angle = none →
      ServoTest.hold defaultServo = defaultServo) ∧
    (ServoTest.hold (defaultServo.set_angle 45).release).pwm_value =
      defaultServo.angle_to_duty 45 :=
  release_preserves_current_angle defaultServo 45
